import Mathlib

/-!
Shallow embedding of the social-media backend (posts, friends and groups
services) together with proofs about its visibility, pagination, like/unlike,
friend-request and group-membership logic.

Modelling conventions:
* Go strings are `String`, Go `int`/`int64`/`int32` are `Int` (counts coming
  from row counting are `Nat`), `time.Time` is a `Nat` timestamp supplied as a
  `now` argument where the code calls `time.Now()`.
* A database is a record of lists of live (not soft-deleted) rows; GORM's
  soft delete always filters deleted rows out of every query in this code
  base, so deleting a row is modelled by removing it from the list.  The
  lists are kept in the scan order of the corresponding SQL queries.
* `First` queries are `List.find?`, `Count` queries are `List.length` of the
  filtered list, `Offset o Limit l` is `List.drop o` followed by `List.take l`.
* The `BeforeCreate` UUID hook is modelled by a fresh-id counter `nextID` in
  the database record; `genID n` is the id generated at counter value `n`.
* gRPC status codes returned by the posts service are the `Code` inductive;
  the friends and groups services return plain `errors.New` strings and are
  modelled with `Except String`.
* Functions that mutate the store return the updated database explicitly.
-/

deriving instance DecidableEq for Except

namespace Social

/-- gRPC status codes used by the posts service. -/
inductive Code where
  | invalidArgument
  | notFound
  | permissionDenied
  | alreadyExists
  | internal
deriving DecidableEq

/-- `models.Post` (live row; `DeletedAt` is modelled by removal). -/
structure Post where
  id : String
  authorID : String
  authorName : String
  authorAvatar : String
  content : String
  visibility : String
  groupID : String
  groupName : String
  mediaArray : List String
  likesCount : Int
  commentsCount : Int
  createdAt : Nat
  updatedAt : Nat
deriving DecidableEq

/-- `models.Comment`. -/
structure Comment where
  id : String
  postID : String
  authorID : String
  authorName : String
  authorAvatar : String
  content : String
  createdAt : Nat
  updatedAt : Nat
deriving DecidableEq

/-- `models.Like`. -/
structure Like where
  id : String
  postID : String
  userID : String
  createdAt : Nat
deriving DecidableEq

/-- The posts-api store: live rows of the three tables plus the fresh-id
counter standing in for the UUID generator used by `BeforeCreate`. -/
structure PostsDB where
  posts : List Post
  comments : List Comment
  likes : List Like
  nextID : Nat
deriving DecidableEq

/-- Fresh id produced by the modelled UUID generator at counter value `n`. -/
def genID (n : Nat) : String := "uuid-" ++ toString n

/-- The like row built by `LikePost` (`models.Like` plus the `BeforeCreate`
id) at fresh-id counter value `n`. -/
def mkLike (n : Nat) (postID userID : String) (now : Nat) : Like :=
  { id := genID n, postID := postID, userID := userID, createdAt := now }

/-- `postRepository.FindByID`: `First` on `id = ?`. -/
def PostsDB.FindByID (db : PostsDB) (id : String) : Option Post :=
  db.posts.find? (fun p => p.id == id)

/-- `likeRepository.FindByPostAndUser`: `First` on `post_id = ? AND user_id = ?`. -/
def PostsDB.FindByPostAndUser (db : PostsDB) (postID userID : String) : Option Like :=
  db.likes.find? (fun l => l.postID == postID && l.userID == userID)

/-- `postRepository.FindByAuthor`: count of all rows with the author, then the
page at `offset = (page-1)*limit`.  Returns `(rows, count)`. -/
def PostsDB.FindByAuthor (db : PostsDB) (authorID : String) (page limit : Int) :
    List Post × Nat :=
  let rows := db.posts.filter (fun p => p.authorID == authorID)
  (((rows.drop ((page - 1) * limit).toNat).take limit.toNat), rows.length)

/-- `postRepository.FindByGroup`. -/
def PostsDB.FindByGroup (db : PostsDB) (groupID : String) (page limit : Int) :
    List Post × Nat :=
  let rows := db.posts.filter (fun p => p.groupID == groupID)
  (((rows.drop ((page - 1) * limit).toNat).take limit.toNat), rows.length)

/-- `postRepository.FindPublic`. -/
def PostsDB.FindPublic (db : PostsDB) (page limit : Int) : List Post × Nat :=
  let rows := db.posts.filter (fun p => p.visibility == "public")
  (((rows.drop ((page - 1) * limit).toNat).take limit.toNat), rows.length)

/-- `postRepository.FindVisible`: `visibility = 'public' OR (visibility =
'private' AND author_id IN friendIDs)`; a nil slice makes the `IN` clause
match nothing. -/
def PostsDB.FindVisible (db : PostsDB) (userID : String)
    (friendIDs : Option (List String)) (page limit : Int) : List Post × Nat :=
  let rows := db.posts.filter (fun p =>
    p.visibility == "public" ||
      (p.visibility == "private" && (friendIDs.getD []).contains p.authorID))
  (((rows.drop ((page - 1) * limit).toNat).take limit.toNat), rows.length)

/-- `commentRepository.FindByPost`. -/
def PostsDB.FindByPost (db : PostsDB) (postID : String) (page limit : Int) :
    List Comment × Nat :=
  let rows := db.comments.filter (fun c => c.postID == postID)
  (((rows.drop ((page - 1) * limit).toNat).take limit.toNat), rows.length)

/-- `postRepository.IncrementLikesCount`: `UPDATE ... SET likes_count =
likes_count + 1 WHERE id = ?`. -/
def PostsDB.IncrementLikesCount (db : PostsDB) (id : String) : PostsDB :=
  { db with posts := db.posts.map (fun p =>
      if p.id == id then { p with likesCount := p.likesCount + 1 } else p) }

/-- `postRepository.DecrementLikesCount`. -/
def PostsDB.DecrementLikesCount (db : PostsDB) (id : String) : PostsDB :=
  { db with posts := db.posts.map (fun p =>
      if p.id == id then { p with likesCount := p.likesCount - 1 } else p) }

/-- `likeRepository.Delete`: delete (all live) likes with the given id. -/
def PostsDB.DeleteLike (db : PostsDB) (id : String) : PostsDB :=
  { db with likes := db.likes.filter (fun l => !(l.id == id)) }

/-- `postRepository.Update` (`Save`): replace the row with the post's id. -/
def PostsDB.SavePost (db : PostsDB) (post : Post) : PostsDB :=
  { db with posts := db.posts.map (fun p => if p.id == post.id then post else p) }

/-- `postService.isPostVisibleToUser`, translated clause by clause from the
source. -/
def isPostVisibleToUser (post : Post) (userID : String)
    (friendIDs : Option (List String)) : Bool :=
  if post.visibility == "public" then true
  else if userID == post.authorID then true
  else if post.visibility == "private" && friendIDs.isSome &&
      (friendIDs.getD []).contains post.authorID then true
  else if post.groupID != "" then true
  else false

/-- `postService.IsLiked`. -/
def IsLiked (db : PostsDB) (postID userID : String) : Except Code Bool :=
  if postID = "" then Except.error Code.invalidArgument
  else if userID = "" then Except.error Code.invalidArgument
  else
    match db.FindByPostAndUser postID userID with
    | none => Except.ok false
    | some _ => Except.ok true

/-- `postService.GetPost`.  The visibility check is made with a nil friend
list, exactly as in the source (`s.isPostVisibleToUser(post, userID, nil)`);
the error of the inner `IsLiked` call is discarded as in `isLiked, _ = ...`. -/
def GetPost (db : PostsDB) (postID userID : String) : Except Code (Post × Bool) :=
  if postID = "" then Except.error Code.invalidArgument
  else
    match db.FindByID postID with
    | none => Except.error Code.notFound
    | some post =>
      if !(isPostVisibleToUser post userID none) then
        Except.error Code.permissionDenied
      else
        let isLiked :=
          if userID ≠ "" then
            match IsLiked db postID userID with
            | Except.ok b => b
            | Except.error _ => false
          else false
        Except.ok (post, isLiked)

/-- The page coercion `if page < 1 { page = 1 }` shared by `GetPosts` and
`GetComments`. -/
def normPage (page : Int) : Int := if page < 1 then 1 else page

/-- The limit coercion `if limit < 1 || limit > 100 { limit = 10 }` shared by
`GetPosts` and `GetComments`. -/
def normLimit (limit : Int) : Int := if limit < 1 ∨ limit > 100 then 10 else limit

/-- `postService.GetPosts`: page/limit coercion, mutually exclusive filter
branch, per-item visibility filter, `totalPages = (count + limit - 1) / limit`.
Returns `(visiblePosts, count, totalPages)`. -/
def GetPosts (db : PostsDB) (userID authorID groupID visibility : String)
    (page limit : Int) (friendIDs : Option (List String)) :
    List Post × Nat × Nat :=
  let page := normPage page
  let limit := normLimit limit
  let fetched :=
    if authorID ≠ "" then db.FindByAuthor authorID page limit
    else if groupID ≠ "" then db.FindByGroup groupID page limit
    else if userID = "" ∨ visibility = "public" then db.FindPublic page limit
    else db.FindVisible userID friendIDs page limit
  let visiblePosts := fetched.1.filter (fun p => isPostVisibleToUser p userID friendIDs)
  let totalPages := (fetched.2 + limit.toNat - 1) / limit.toNat
  (visiblePosts, fetched.2, totalPages)

/-- `postService.GetComments`. -/
def GetComments (db : PostsDB) (postID : String) (page limit : Int) :
    Except Code (List Comment × Nat × Nat) :=
  if postID = "" then Except.error Code.invalidArgument
  else
    let page := normPage page
    let limit := normLimit limit
    let fetched := db.FindByPost postID page limit
    let totalPages := (fetched.2 + limit.toNat - 1) / limit.toNat
    Except.ok (fetched.1, fetched.2, totalPages)

/-- `postService.UpdatePost`.  `media = none` models a nil media slice,
`now` models `time.Now()`.  Returns the (possibly updated) database and the
result. -/
def UpdatePost (db : PostsDB) (postID userID content visibility : String)
    (media : Option (List String)) (now : Nat) : PostsDB × Except Code Post :=
  if postID = "" then (db, Except.error Code.invalidArgument)
  else if userID = "" then (db, Except.error Code.invalidArgument)
  else if content = "" then (db, Except.error Code.invalidArgument)
  else if visibility ≠ "" ∧ visibility ≠ "public" ∧ visibility ≠ "private" then
    (db, Except.error Code.invalidArgument)
  else
    match db.FindByID postID with
    | none => (db, Except.error Code.notFound)
    | some post =>
      if post.authorID ≠ userID then (db, Except.error Code.permissionDenied)
      else
        let post' := { post with
          content := content,
          visibility := if visibility ≠ "" then visibility else post.visibility,
          mediaArray := media.getD post.mediaArray,
          updatedAt := now }
        (db.SavePost post', Except.ok post')

/-- `postService.LikePost`.  The Go function returns `(int32, error)`; we
return the updated database, the count and an optional status code (`none`
means success). -/
def LikePost (db : PostsDB) (postID userID : String) (now : Nat) :
    PostsDB × Int × Option Code :=
  if postID = "" then (db, 0, some Code.invalidArgument)
  else if userID = "" then (db, 0, some Code.invalidArgument)
  else
    match db.FindByID postID with
    | none => (db, 0, some Code.notFound)
    | some post =>
      match db.FindByPostAndUser postID userID with
      | some _ => (db, post.likesCount, some Code.alreadyExists)
      | none =>
        let like : Like := mkLike db.nextID postID userID now
        let db1 : PostsDB :=
          { db with likes := db.likes ++ [like], nextID := db.nextID + 1 }
        let db2 := db1.IncrementLikesCount postID
        match db2.FindByID postID with
        | none => (db2, post.likesCount + 1, none)
        | some updated => (db2, updated.likesCount, none)

/-- `postService.UnlikePost`. -/
def UnlikePost (db : PostsDB) (postID userID : String) :
    PostsDB × Int × Option Code :=
  if postID = "" then (db, 0, some Code.invalidArgument)
  else if userID = "" then (db, 0, some Code.invalidArgument)
  else
    match db.FindByID postID with
    | none => (db, 0, some Code.notFound)
    | some post =>
      match db.FindByPostAndUser postID userID with
      | none => (db, post.likesCount, some Code.notFound)
      | some like =>
        let db1 := db.DeleteLike like.id
        let db2 := db1.DecrementLikesCount postID
        match db2.FindByID postID with
        | none => (db2, post.likesCount - 1, none)
        | some updated => (db2, updated.likesCount, none)

/-! Friends service (`friendService` / `friendRepository`). -/

/-- `models.FriendRequest`. -/
structure FriendRequest where
  id : String
  senderID : String
  receiverID : String
  status : String
  createdAt : Nat
  updatedAt : Nat
deriving DecidableEq

/-- `models.Friendship`: one directional row; accepted requests create a
symmetric pair. -/
structure Friendship where
  id : String
  userID : String
  friendID : String
deriving DecidableEq

/-- `models.BlockedUser`. -/
structure BlockedUser where
  id : String
  userID : String
  blockedUserID : String
deriving DecidableEq

/-- The friends-api store. -/
structure FriendsDB where
  requests : List FriendRequest
  friendships : List Friendship
  blocked : List BlockedUser
  nextID : Nat
deriving DecidableEq

/-- The friendship row built by `AcceptFriendRequest` (`models.Friendship`
plus the `BeforeCreate` id) at fresh-id counter value `n`. -/
def mkFriendship (n : Nat) (userID friendID : String) : Friendship :=
  { id := genID n, userID := userID, friendID := friendID }

/-- `friendRepository.GetFriendRequestByID`. -/
def FriendsDB.GetFriendRequestByID (db : FriendsDB) (id : String) :
    Option FriendRequest :=
  db.requests.find? (fun r => r.id == id)

/-- `friendRepository.UpdateFriendRequestStatus`: `UPDATE ... SET status = ?
WHERE id = ?`. -/
def FriendsDB.UpdateFriendRequestStatus (db : FriendsDB) (id status : String) :
    FriendsDB :=
  { db with requests := db.requests.map (fun r =>
      if r.id == id then { r with status := status } else r) }

/-- `friendRepository.CheckFriendship`: friendship row in the `(userID,
friendID)` direction, else a pending request in either direction, else a
block in either direction, else none.  Returns `(status, requestID)`. -/
def FriendsDB.CheckFriendship (db : FriendsDB) (userID friendID : String) :
    String × String :=
  if db.friendships.any (fun f => f.userID == userID && f.friendID == friendID) then
    ("friends", "")
  else
    match db.requests.find? (fun r =>
        ((r.senderID == userID && r.receiverID == friendID) ||
          (r.senderID == friendID && r.receiverID == userID)) &&
        r.status == "pending") with
    | some r => ("pending", r.id)
    | none =>
      if db.blocked.any (fun b =>
          (b.userID == userID && b.blockedUserID == friendID) ||
            (b.userID == friendID && b.blockedUserID == userID)) then
        ("blocked", "")
      else ("none", "")

/-- `friendService.AcceptFriendRequest`: receiver-only, pending-only; flips
the status to accepted and creates the two symmetric friendship rows. -/
def AcceptFriendRequest (db : FriendsDB) (requestID userID : String) (now : Nat) :
    FriendsDB × Except String FriendRequest :=
  match db.GetFriendRequestByID requestID with
  | none => (db, Except.error "record not found")
  | some request =>
    if request.receiverID ≠ userID then
      (db, Except.error "not authorized to accept this friend request")
    else if request.status ≠ "pending" then
      (db, Except.error "friend request is not pending")
    else
      let db1 := db.UpdateFriendRequestStatus requestID "accepted"
      let f1 : Friendship := mkFriendship db1.nextID request.senderID request.receiverID
      let db2 : FriendsDB :=
        { db1 with friendships := db1.friendships ++ [f1], nextID := db1.nextID + 1 }
      let f2 : Friendship := mkFriendship db2.nextID request.receiverID request.senderID
      let db3 : FriendsDB :=
        { db2 with friendships := db2.friendships ++ [f2], nextID := db2.nextID + 1 }
      (db3, Except.ok { request with status := "accepted", updatedAt := now })

/-- `friendService.RejectFriendRequest`. -/
def RejectFriendRequest (db : FriendsDB) (requestID userID : String) (now : Nat) :
    FriendsDB × Except String FriendRequest :=
  match db.GetFriendRequestByID requestID with
  | none => (db, Except.error "record not found")
  | some request =>
    if request.receiverID ≠ userID then
      (db, Except.error "not authorized to reject this friend request")
    else if request.status ≠ "pending" then
      (db, Except.error "friend request is not pending")
    else
      let db1 := db.UpdateFriendRequestStatus requestID "rejected"
      (db1, Except.ok { request with status := "rejected", updatedAt := now })

/-- `friendService.CheckFriendship`: "self" short-circuit, then the
repository classifier. -/
def CheckFriendship (db : FriendsDB) (userID friendID : String) :
    String × String :=
  if userID = friendID then ("self", "")
  else db.CheckFriendship userID friendID

/-! Groups service (`groupService` / `groupRepository`). -/

/-- `models.Group`. -/
structure Group where
  id : String
  name : String
  description : String
  avatar : String
  creatorID : String
deriving DecidableEq

/-- `models.GroupMember`. -/
structure GroupMember where
  id : String
  groupID : String
  userID : String
  role : String
deriving DecidableEq

/-- The groups-api store. -/
structure GroupsDB where
  groups : List Group
  members : List GroupMember
deriving DecidableEq

/-- `groupRepository.GetGroupByID`. -/
def GroupsDB.GetGroupByID (db : GroupsDB) (id : String) : Option Group :=
  db.groups.find? (fun g => g.id == id)

/-- `groupRepository.IsMember`: membership-row count is positive. -/
def GroupsDB.IsMember (db : GroupsDB) (groupID userID : String) : Bool :=
  0 < (db.members.filter (fun m => m.groupID == groupID && m.userID == userID)).length

/-- `groupRepository.RemoveMember`: delete rows with `group_id = ? AND
user_id = ?`. -/
def GroupsDB.RemoveMember (db : GroupsDB) (groupID userID : String) : GroupsDB :=
  { db with members := db.members.filter (fun m =>
      !(m.groupID == groupID && m.userID == userID)) }

/-- `groupRepository.GetGroupMembers`: `(rows of the requested page, count of
all rows of the group)`. -/
def GroupsDB.GetGroupMembers (db : GroupsDB) (groupID : String) (page limit : Int) :
    List GroupMember × Nat :=
  let rows := db.members.filter (fun m => m.groupID == groupID)
  (((rows.drop ((page - 1) * limit).toNat).take limit.toNat), rows.length)

/-- `groupService.LeaveGroup`: group must exist, caller must be a member and
must not be the creator; on success the membership row is removed and the
updated member count (`GetGroupMembers(groupID, 1, 1)` count) is returned. -/
def LeaveGroup (db : GroupsDB) (groupID userID : String) :
    GroupsDB × Except String (Bool × Nat) :=
  match db.GetGroupByID groupID with
  | none => (db, Except.error "record not found")
  | some group =>
    if !(db.IsMember groupID userID) then
      (db, Except.error "not a member of this group")
    else if group.creatorID == userID then
      (db, Except.error "creator cannot leave the group")
    else
      let db1 := db.RemoveMember groupID userID
      (db1, Except.ok (true, (db1.GetGroupMembers groupID 1 1).2))

/-! Concrete fixtures used to evaluate the operations on closed inputs. -/

/-- Fixture: a private post that carries a (non-empty) group id. -/
def groupPrivatePost : Post :=
  { id := "p1", authorID := "alice", authorName := "Alice", authorAvatar := "",
    content := "hi", visibility := "private", groupID := "g1", groupName := "G",
    mediaArray := [], likesCount := 0, commentsCount := 0, createdAt := 0,
    updatedAt := 0 }

/-- Fixture: a store holding only `groupPrivatePost`. -/
def groupPrivateDB : PostsDB :=
  { posts := [groupPrivatePost], comments := [], likes := [], nextID := 0 }

/-- Fixture: a private post with an empty group id. -/
def plainPrivatePost : Post :=
  { id := "p2", authorID := "alice", authorName := "Alice", authorAvatar := "",
    content := "secret", visibility := "private", groupID := "", groupName := "",
    mediaArray := [], likesCount := 0, commentsCount := 0, createdAt := 0,
    updatedAt := 0 }

/-- Fixture: a store holding only `plainPrivatePost`. -/
def plainPrivateDB : PostsDB :=
  { posts := [plainPrivatePost], comments := [], likes := [], nextID := 0 }

/-- Fixture: the `n`-th comment on post "p". -/
def mkComment (n : Nat) : Comment :=
  { id := toString n, postID := "p", authorID := "a", authorName := "A",
    authorAvatar := "", content := "c", createdAt := n, updatedAt := n }

/-- Fixture: a store holding `n` comments on post "p". -/
def commentsDB (n : Nat) : PostsDB :=
  { posts := [], comments := (List.range n).map mkComment, likes := [], nextID := 0 }

/-- Fixture: first private, group-less post by "alice". -/
def alicePrivatePost1 : Post :=
  { id := "q1", authorID := "alice", authorName := "Alice", authorAvatar := "",
    content := "one", visibility := "private", groupID := "", groupName := "",
    mediaArray := [], likesCount := 0, commentsCount := 0, createdAt := 2,
    updatedAt := 2 }

/-- Fixture: second private, group-less post by "alice". -/
def alicePrivatePost2 : Post :=
  { id := "q2", authorID := "alice", authorName := "Alice", authorAvatar := "",
    content := "two", visibility := "private", groupID := "", groupName := "",
    mediaArray := [], likesCount := 0, commentsCount := 0, createdAt := 1,
    updatedAt := 1 }

/-- Fixture: a store holding exactly the two private posts by "alice". -/
def twoPrivateDB : PostsDB :=
  { posts := [alicePrivatePost1, alicePrivatePost2], comments := [], likes := [],
    nextID := 0 }

/-- Fixture: the public "hello" post by user "A" of the end-to-end scenario. -/
def helloPost : Post :=
  { id := "h1", authorID := "A", authorName := "User A", authorAvatar := "",
    content := "hello", visibility := "public", groupID := "", groupName := "",
    mediaArray := [], likesCount := 0, commentsCount := 0, createdAt := 0,
    updatedAt := 0 }

/-- Fixture: a store holding only `helloPost`, with no likes. -/
def helloDB : PostsDB :=
  { posts := [helloPost], comments := [], likes := [], nextID := 0 }

/-- Fixture: a pending friend request from "A" to "B". -/
def pendingRequest : FriendRequest :=
  { id := "r1", senderID := "A", receiverID := "B", status := "pending",
    createdAt := 0, updatedAt := 0 }

/-- Fixture: a friends store holding only `pendingRequest`. -/
def pendingDB : FriendsDB :=
  { requests := [pendingRequest], friendships := [], blocked := [], nextID := 0 }

/-- Fixture: a group created by "C". -/
def theGroup : Group :=
  { id := "g1", name := "G", description := "", avatar := "", creatorID := "C" }

/-- Fixture: the creator's membership row of `theGroup`. -/
def creatorMember : GroupMember :=
  { id := "m1", groupID := "g1", userID := "C", role := "creator" }

/-- Fixture: an ordinary member of `theGroup`. -/
def plainMember : GroupMember :=
  { id := "m2", groupID := "g1", userID := "M", role := "member" }

/-- Fixture: a groups store with `theGroup` and its two members. -/
def groupDB : GroupsDB :=
  { groups := [theGroup], members := [creatorMember, plainMember] }

/-- Fixture: a groups store where the creator "C" of `theGroup` holds no
membership row (reachable, since creator enrolment at group creation is
best-effort and may fail). -/
def lonelyGroupDB : GroupsDB :=
  { groups := [theGroup], members := [plainMember] }

/-! Helper lemmas. -/

/-- `find?` commutes with a `map` whose function does not change the truth of
the search predicate. -/
theorem find?_map_of_pred_eq {α : Type} (l : List α) (p : α → Bool) (f : α → α)
    (hf : ∀ x, p (f x) = p x) : (l.map f).find? p = (l.find? p).map f := by
  induction l with
  | nil => rfl
  | cons a t ih =>
      by_cases ha : p a = true
      · simp [List.find?_cons, hf, ha]
      · simp only [Bool.not_eq_true] at ha
        simp [List.find?_cons, hf, ha, ih]

/-- A `map` with a function that fixes every element of the list is the
identity. -/
theorem map_eq_self_of_fixed {α : Type} (l : List α) (f : α → α)
    (hf : ∀ x ∈ l, f x = x) : l.map f = l := by
  induction l with
  | nil => rfl
  | cons a t ih =>
      simp only [List.map_cons, hf a (by simp)]
      rw [ih (fun x hx => hf x (by simp [hx]))]

/-- The normalized page is a fixed point of the coercion. -/
theorem normPage_idem (page : Int) : normPage (normPage page) = normPage page := by
  unfold normPage
  split_ifs <;> omega

/-- The normalized limit is a fixed point of the coercion. -/
theorem normLimit_idem (limit : Int) : normLimit (normLimit limit) = normLimit limit := by
  unfold normLimit
  split_ifs <;> omega

/-- The normalized limit lies in `[1, 100]`. -/
theorem normLimit_pos (limit : Int) : 1 ≤ normLimit limit := by
  unfold normLimit
  split_ifs <;> omega

/-- The `(count + limit - 1) / limit` page formula used throughout the
services is ceiling division. -/
theorem pages_formula_eq_ceil (c l : Nat) (hl : 0 < l) :
    (c + l - 1) / l = ⌈(c : ℚ) / (l : ℚ)⌉₊ := by
  have key : ∀ n : Nat, (c + l - 1) / l ≤ n ↔ ⌈(c : ℚ) / (l : ℚ)⌉₊ ≤ n := by
    intro n
    rw [← Nat.ceilDiv_eq_add_pred_div, ceilDiv_le_iff_le_smul hl, smul_eq_mul,
      Nat.ceil_le, div_le_iff₀ (by exact_mod_cast hl), mul_comm l n]
    exact_mod_cast Iff.rfl
  exact le_antisymm ((key _).2 le_rfl) ((key _).1 le_rfl)

/-- C1: `isPostVisibleToUser` is the total deterministic function returning
visible iff the post is public, or the viewer is the author, or the post is
private and the friend list contains the author, or the post carries a
non-empty group id. -/
theorem c1_isPostVisibleToUser_spec (post : Post) (userID : String)
    (friendIDs : Option (List String)) :
    isPostVisibleToUser post userID friendIDs =
      (post.visibility == "public" || userID == post.authorID ||
        (post.visibility == "private" &&
          (friendIDs.getD []).contains post.authorID) ||
        post.groupID != "") := by
  unfold isPostVisibleToUser
  cases friendIDs <;> split_ifs <;> simp_all

/-- For a private post with empty group id, `GetPost` (which passes a nil
friend list to the visibility check) denies every viewer other than the
author. -/
theorem getPost_private_plain_denied (db : PostsDB) (postID userID : String)
    (post : Post) (hpid : postID ≠ "") (hfind : db.FindByID postID = some post)
    (hvis : post.visibility = "private") (hgrp : post.groupID = "")
    (hown : userID ≠ post.authorID) :
    GetPost db postID userID = Except.error Code.permissionDenied := by
  have hv : isPostVisibleToUser post userID none = false := by
    unfold isPostVisibleToUser
    simp [hvis, hgrp, hown]
  unfold GetPost
  rw [if_neg hpid, hfind]
  simp [hv]

/-- For any existing post, the author always gets a successful `GetPost`. -/
theorem getPost_owner_ok (db : PostsDB) (postID : String) (post : Post)
    (hpid : postID ≠ "") (hfind : db.FindByID postID = some post) :
    ∃ r, GetPost db postID post.authorID = Except.ok r := by
  have hv : isPostVisibleToUser post post.authorID none = true := by
    unfold isPostVisibleToUser
    split_ifs <;> simp_all
  unfold GetPost
  rw [if_neg hpid, hfind]
  simp [hv]

/-- C2 counterexample: the claim fails on a private post attached to a group.
`groupPrivatePost` is private, the viewer "bob" is not its author (and the
author's friend list is empty, so "bob" is not in it), yet `GetPost` succeeds
instead of failing with PermissionDenied, because the group-id clause of the
visibility resolver marks every group-associated post visible. -/
theorem c2_counterexample :
    groupPrivateDB.FindByID "p1" = some groupPrivatePost ∧
    groupPrivatePost.visibility = "private" ∧
    "bob" ≠ groupPrivatePost.authorID ∧
    GetPost groupPrivateDB "p1" "bob" = Except.ok (groupPrivatePost, false) ∧
    GetPost groupPrivateDB "p1" "bob" ≠ Except.error Code.permissionDenied := by
  decide

/-- C2 (amended): for every existing post with a non-empty id, visibility
"private" and an **empty group id**, every viewer whose id differs from the
author id (in particular every viewer outside the author's friend list)
receives PermissionDenied from `GetPost`. -/
theorem c2_private_getpost_denied (db : PostsDB) (postID userID : String)
    (post : Post) (hpid : postID ≠ "") (hfind : db.FindByID postID = some post)
    (hvis : post.visibility = "private") (hgrp : post.groupID = "")
    (hown : userID ≠ post.authorID) :
    GetPost db postID userID = Except.error Code.permissionDenied :=
  getPost_private_plain_denied db postID userID post hpid hfind hvis hgrp hown

/-- Witness for `c2_private_getpost_denied` at a concrete store. -/
theorem c2_private_getpost_denied_witness :
    plainPrivateDB.FindByID "p2" = some plainPrivatePost ∧
    GetPost plainPrivateDB "p2" "bob" = Except.error Code.permissionDenied :=
  ⟨by decide,
    c2_private_getpost_denied plainPrivateDB "p2" "bob" plainPrivatePost
      (by decide) (by decide) (by decide) (by decide) (by decide)⟩

/-- C9: `GetPost` evaluates the visibility check with a nil friend list, so
for an existing private post with empty group id it succeeds exactly for the
author; every other viewer — friend of the author or not — gets
PermissionDenied. -/
theorem c9_getpost_nil_friendlist (db : PostsDB) (postID userID : String)
    (post : Post) (hpid : postID ≠ "") (hfind : db.FindByID postID = some post)
    (hvis : post.visibility = "private") (hgrp : post.groupID = "") :
    ((∃ r, GetPost db postID userID = Except.ok r) ↔ userID = post.authorID) ∧
    (userID ≠ post.authorID →
      GetPost db postID userID = Except.error Code.permissionDenied) := by
  constructor
  · constructor
    · intro hok
      by_contra hown
      rcases hok with ⟨r, hr⟩
      rw [getPost_private_plain_denied db postID userID post hpid hfind hvis hgrp hown] at hr
      exact Except.noConfusion hr
    · intro hown
      subst hown
      exact getPost_owner_ok db postID post hpid hfind
  · intro hown
    exact getPost_private_plain_denied db postID userID post hpid hfind hvis hgrp hown

/-- Witness for `c9_getpost_nil_friendlist` at a concrete store. -/
theorem c9_getpost_nil_friendlist_witness :
    ((∃ r, GetPost plainPrivateDB "p2" "bob" = Except.ok r) ↔
        "bob" = plainPrivatePost.authorID) ∧
    ("bob" ≠ plainPrivatePost.authorID →
      GetPost plainPrivateDB "p2" "bob" = Except.error Code.permissionDenied) :=
  c9_getpost_nil_friendlist plainPrivateDB "p2" "bob" plainPrivatePost
    (by decide) (by decide) (by decide) (by decide)

/-- C3: pagination policy of the post service.  Page < 1 is coerced to 1 and
a limit outside [1,100] to 10 (so limit 0 acts as 10 and limit 100 is kept);
the comment repository reads rows at offset `(page-1)*limit`; the returned
total-page count is `ceil(count / limit)` for both `GetPosts` and
`GetComments`; with limit 10 a count of 25 yields 3 pages and a count of 20
yields 2. -/
theorem c3_pagination (db : PostsDB) (userID authorID groupID visibility postID : String)
    (friendIDs : Option (List String)) (page limit : Int) (hpid : postID ≠ "") :
    (normPage page = (if page < 1 then 1 else page) ∧
      normLimit limit = (if limit < 1 ∨ limit > 100 then 10 else limit) ∧
      normLimit 0 = 10 ∧ normLimit 100 = 100) ∧
    (GetPosts db userID authorID groupID visibility page limit friendIDs =
      GetPosts db userID authorID groupID visibility (normPage page)
        (normLimit limit) friendIDs) ∧
    (GetComments db postID page limit =
      GetComments db postID (normPage page) (normLimit limit)) ∧
    (∀ pg lm : Int, db.FindByPost postID pg lm =
      (((db.comments.filter (fun c => c.postID == postID)).drop
          ((pg - 1) * lm).toNat).take lm.toNat,
        (db.comments.filter (fun c => c.postID == postID)).length)) ∧
    (GetComments db postID page limit =
      Except.ok
        ((db.FindByPost postID (normPage page) (normLimit limit)).1,
          (db.FindByPost postID (normPage page) (normLimit limit)).2,
          ⌈(((db.FindByPost postID (normPage page) (normLimit limit)).2 : ℚ)) /
              (((normLimit limit).toNat : ℚ))⌉₊)) ∧
    (∀ posts count pages,
      GetPosts db userID authorID groupID visibility page limit friendIDs =
        (posts, count, pages) →
      pages = ⌈((count : ℚ)) / (((normLimit limit).toNat : ℚ))⌉₊) ∧
    (GetComments (commentsDB 25) "p" 1 10 =
      Except.ok ((List.range 10).map mkComment, 25, 3)) ∧
    (GetComments (commentsDB 20) "p" 1 10 =
      Except.ok ((List.range 10).map mkComment, 20, 2)) ∧
    (GetComments (commentsDB 25) "p" 1 0 = GetComments (commentsDB 25) "p" 1 10) ∧
    (GetComments (commentsDB 25) "p" 1 100 =
      Except.ok ((List.range 25).map mkComment, 25, 1)) := by
  have hlim : (0 : Nat) < (normLimit limit).toNat := by
    have := normLimit_pos limit
    omega
  refine ⟨⟨rfl, rfl, by decide, by decide⟩, ?_, ?_, fun pg lm => rfl, ?_, ?_,
    by decide, by decide, by decide, by decide⟩
  · unfold GetPosts
    rw [normPage_idem, normLimit_idem]
  · unfold GetComments
    rw [normPage_idem, normLimit_idem]
  · unfold GetComments
    rw [if_neg hpid]
    have := pages_formula_eq_ceil (db.FindByPost postID (normPage page) (normLimit limit)).2
      (normLimit limit).toNat hlim
    simp only [this]
  · intro posts count pages h
    unfold GetPosts at h
    have hc := congrArg (fun t : List Post × Nat × Nat => t.2.1) h
    have hp := congrArg (fun t : List Post × Nat × Nat => t.2.2) h
    simp only at hc hp
    rw [← hp, ← hc]
    exact pages_formula_eq_ceil _ _ hlim

/-- Witness for `c3_pagination` at concrete inputs. -/
theorem c3_pagination_witness :
    (normPage (-3) = (if (-3 : Int) < 1 then 1 else (-3)) ∧
      normLimit 0 = (if (0 : Int) < 1 ∨ (0 : Int) > 100 then 10 else 0) ∧
      normLimit 0 = 10 ∧ normLimit 100 = 100) ∧
    (GetPosts (commentsDB 25) "" "" "" "" (-3) 0 none =
      GetPosts (commentsDB 25) "" "" "" "" (normPage (-3)) (normLimit 0) none) ∧
    (GetComments (commentsDB 25) "p" (-3) 0 =
      GetComments (commentsDB 25) "p" (normPage (-3)) (normLimit 0)) ∧
    (∀ pg lm : Int, (commentsDB 25).FindByPost "p" pg lm =
      ((((commentsDB 25).comments.filter (fun c => c.postID == "p")).drop
          ((pg - 1) * lm).toNat).take lm.toNat,
        ((commentsDB 25).comments.filter (fun c => c.postID == "p")).length)) ∧
    (GetComments (commentsDB 25) "p" (-3) 0 =
      Except.ok
        (((commentsDB 25).FindByPost "p" (normPage (-3)) (normLimit 0)).1,
          ((commentsDB 25).FindByPost "p" (normPage (-3)) (normLimit 0)).2,
          ⌈((((commentsDB 25).FindByPost "p" (normPage (-3)) (normLimit 0)).2 : ℚ)) /
              (((normLimit 0).toNat : ℚ))⌉₊)) ∧
    (∀ posts count pages,
      GetPosts (commentsDB 25) "" "" "" "" (-3) 0 none = (posts, count, pages) →
      pages = ⌈((count : ℚ)) / (((normLimit 0).toNat : ℚ))⌉₊) ∧
    (GetComments (commentsDB 25) "p" 1 10 =
      Except.ok ((List.range 10).map mkComment, 25, 3)) ∧
    (GetComments (commentsDB 20) "p" 1 10 =
      Except.ok ((List.range 10).map mkComment, 20, 2)) ∧
    (GetComments (commentsDB 25) "p" 1 0 = GetComments (commentsDB 25) "p" 1 10) ∧
    (GetComments (commentsDB 25) "p" 1 100 =
      Except.ok ((List.range 25).map mkComment, 25, 1)) :=
  c3_pagination (commentsDB 25) "" "" "" "" "p" none (-3) 0 (by decide)

/-- C10: in every `GetPosts` call, the rows and the total count come from the
repository function of the selected filter branch; the returned count (and so
the page count) is that repository's count of all rows matching the branch
filter, taken before the per-item visibility check, while the returned list
keeps only the fetched items that pass the check.  The per-branch conjuncts
identify the count with the full pre-visibility row count of each of the four
branches.  Consequently the returned list can be shorter than
`min(limit, count)` and the count can include posts the viewer may not see:
for the store of two private posts by "alice", viewer "bob" receives an empty
list together with count 2. -/
theorem c10_count_before_visibility (db : PostsDB)
    (userID authorID groupID visibility : String) (page limit : Int)
    (friendIDs : Option (List String)) :
    (∃ fetched : List Post × Nat,
      (fetched =
        if authorID ≠ "" then db.FindByAuthor authorID (normPage page) (normLimit limit)
        else if groupID ≠ "" then db.FindByGroup groupID (normPage page) (normLimit limit)
        else if userID = "" ∨ visibility = "public" then
          db.FindPublic (normPage page) (normLimit limit)
        else db.FindVisible userID friendIDs (normPage page) (normLimit limit)) ∧
      GetPosts db userID authorID groupID visibility page limit friendIDs =
        (fetched.1.filter (fun p => isPostVisibleToUser p userID friendIDs),
          fetched.2,
          (fetched.2 + (normLimit limit).toNat - 1) / (normLimit limit).toNat) ∧
      (authorID ≠ "" →
        fetched.2 = (db.posts.filter (fun p => p.authorID == authorID)).length) ∧
      (authorID = "" → groupID ≠ "" →
        fetched.2 = (db.posts.filter (fun p => p.groupID == groupID)).length) ∧
      (authorID = "" → groupID = "" → (userID = "" ∨ visibility = "public") →
        fetched.2 = (db.posts.filter (fun p => p.visibility == "public")).length) ∧
      (authorID = "" → groupID = "" → userID ≠ "" → visibility ≠ "public" →
        fetched.2 = (db.posts.filter (fun p =>
          p.visibility == "public" ||
            (p.visibility == "private" &&
              (friendIDs.getD []).contains p.authorID))).length)) ∧
    (GetPosts twoPrivateDB "bob" "alice" "" "" 1 10 none).1 = [] ∧
    (GetPosts twoPrivateDB "bob" "alice" "" "" 1 10 none).2.1 = 2 ∧
    (GetPosts twoPrivateDB "bob" "alice" "" "" 1 10 none).1.length <
      min (normLimit 10).toNat (GetPosts twoPrivateDB "bob" "alice" "" "" 1 10 none).2.1 := by
  refine ⟨⟨_, rfl, rfl, ?_, ?_, ?_, ?_⟩, by decide, by decide, by decide⟩
  · intro ha
    rw [if_pos ha]
    rfl
  · intro ha hg
    rw [if_neg (by simp [ha]), if_pos hg]
    rfl
  · intro ha hg hpub
    rw [if_neg (by simp [ha]), if_neg (by simp [hg]), if_pos hpub]
    rfl
  · intro ha hg hu hv
    have hnpub : ¬(userID = "" ∨ visibility = "public") := by
      rintro (h | h)
      · exact hu h
      · exact hv h
    rw [if_neg (by simp [ha]), if_neg (by simp [hg]), if_neg hnpub]
    rfl

/-- Witness for `c10_count_before_visibility` at concrete inputs. -/
theorem c10_count_before_visibility_witness :
    (∃ fetched : List Post × Nat,
      (fetched =
        if ("alice" : String) ≠ "" then
          twoPrivateDB.FindByAuthor "alice" (normPage 1) (normLimit 10)
        else if ("" : String) ≠ "" then
          twoPrivateDB.FindByGroup "" (normPage 1) (normLimit 10)
        else if ("bob" : String) = "" ∨ ("" : String) = "public" then
          twoPrivateDB.FindPublic (normPage 1) (normLimit 10)
        else twoPrivateDB.FindVisible "bob" none (normPage 1) (normLimit 10)) ∧
      GetPosts twoPrivateDB "bob" "alice" "" "" 1 10 none =
        (fetched.1.filter (fun p => isPostVisibleToUser p "bob" none),
          fetched.2,
          (fetched.2 + (normLimit 10).toNat - 1) / (normLimit 10).toNat) ∧
      (("alice" : String) ≠ "" →
        fetched.2 = (twoPrivateDB.posts.filter (fun p => p.authorID == "alice")).length) ∧
      (("alice" : String) = "" → ("" : String) ≠ "" →
        fetched.2 = (twoPrivateDB.posts.filter (fun p => p.groupID == "")).length) ∧
      (("alice" : String) = "" → ("" : String) = "" →
        (("bob" : String) = "" ∨ ("" : String) = "public") →
        fetched.2 = (twoPrivateDB.posts.filter (fun p => p.visibility == "public")).length) ∧
      (("alice" : String) = "" → ("" : String) = "" → ("bob" : String) ≠ "" →
        ("" : String) ≠ "public" →
        fetched.2 = (twoPrivateDB.posts.filter (fun p =>
          p.visibility == "public" ||
            (p.visibility == "private" &&
              ((none : Option (List String)).getD []).contains p.authorID))).length)) ∧
    (GetPosts twoPrivateDB "bob" "alice" "" "" 1 10 none).1 = [] ∧
    (GetPosts twoPrivateDB "bob" "alice" "" "" 1 10 none).2.1 = 2 ∧
    (GetPosts twoPrivateDB "bob" "alice" "" "" 1 10 none).1.length <
      min (normLimit 10).toNat (GetPosts twoPrivateDB "bob" "alice" "" "" 1 10 none).2.1 :=
  c10_count_before_visibility twoPrivateDB "bob" "alice" "" "" 1 10 none

/-- Looking a post up after a counter update (a `map` that rewrites only the
row with the given id and never changes ids) returns the updated row. -/
theorem find?_map_counter (posts : List Post) (postID : String) (post : Post)
    (f : Post → Post) (hid : ∀ p, (f p).id = p.id)
    (hfind : posts.find? (fun p => p.id == postID) = some post) :
    (posts.map (fun p => if p.id == postID then f p else p)).find?
        (fun p => p.id == postID) = some (f post) := by
  rw [find?_map_of_pred_eq]
  · rw [hfind]
    have hpred := List.find?_some hfind
    simp only [] at hpred
    show some (if post.id == postID then f post else post) = some (f post)
    rw [if_pos hpred]
  · intro x
    by_cases hx : (x.id == postID) = true
    · simp [hx, hid]
    · simp only [Bool.not_eq_true] at hx
      simp [hx, hid]

/-- Incrementing then decrementing the likes counter of a post leaves the
rows unchanged. -/
theorem decStep_incStep_cancel (posts : List Post) (postID : String) :
    ((posts.map (fun p =>
        if p.id == postID then { p with likesCount := p.likesCount + 1 } else p)).map
      (fun p =>
        if p.id == postID then { p with likesCount := p.likesCount - 1 } else p)) =
      posts := by
  rw [List.map_map]
  apply map_eq_self_of_fixed
  intro p _
  by_cases h : (p.id == postID) = true
  · simp [Function.comp, h]
  · simp only [Bool.not_eq_true] at h
    simp [Function.comp, h]

/-- `LikePost` when a live like already exists: AlreadyExists, store
untouched, current count reported. -/
theorem LikePost_already_liked (db : PostsDB) (postID userID : String) (now : Nat)
    (post : Post) (like : Like) (hpid : postID ≠ "") (huid : userID ≠ "")
    (hfind : db.FindByID postID = some post)
    (hlike : db.FindByPostAndUser postID userID = some like) :
    LikePost db postID userID now = (db, post.likesCount, some Code.alreadyExists) := by
  unfold LikePost
  rw [if_neg hpid, if_neg huid, hfind, hlike]

/-- `LikePost` when no live like exists: the like row is appended, the
counter of the post is incremented, and the new count is returned. -/
theorem LikePost_not_liked (db : PostsDB) (postID userID : String) (now : Nat)
    (post : Post) (hpid : postID ≠ "") (huid : userID ≠ "")
    (hfind : db.FindByID postID = some post)
    (hnolike : db.FindByPostAndUser postID userID = none) :
    LikePost db postID userID now =
      (({ db with
          likes := db.likes ++ [mkLike db.nextID postID userID now],
          nextID := db.nextID + 1 } : PostsDB).IncrementLikesCount postID,
        post.likesCount + 1, none) := by
  have hinc :
      (({ db with
          likes := db.likes ++ [mkLike db.nextID postID userID now],
          nextID := db.nextID + 1 } : PostsDB).IncrementLikesCount postID).FindByID
          postID = some { post with likesCount := post.likesCount + 1 } :=
    find?_map_counter db.posts postID post _ (fun p => rfl) hfind
  unfold LikePost
  rw [if_neg hpid, if_neg huid, hfind, hnolike]
  simp only [hinc]

/-- `UnlikePost` when no live like exists: NotFound, store untouched. -/
theorem UnlikePost_not_liked (db : PostsDB) (postID userID : String)
    (post : Post) (hpid : postID ≠ "") (huid : userID ≠ "")
    (hfind : db.FindByID postID = some post)
    (hnolike : db.FindByPostAndUser postID userID = none) :
    UnlikePost db postID userID = (db, post.likesCount, some Code.notFound) := by
  unfold UnlikePost
  rw [if_neg hpid, if_neg huid, hfind, hnolike]

/-- `UnlikePost` when a live like exists: the like row is deleted, the
counter decremented, and the new count returned. -/
theorem UnlikePost_liked (db : PostsDB) (postID userID : String)
    (post : Post) (like : Like) (hpid : postID ≠ "") (huid : userID ≠ "")
    (hfind : db.FindByID postID = some post)
    (hlike : db.FindByPostAndUser postID userID = some like) :
    UnlikePost db postID userID =
      ((db.DeleteLike like.id).DecrementLikesCount postID,
        post.likesCount - 1, none) := by
  have hdec : ((db.DeleteLike like.id).DecrementLikesCount postID).FindByID postID =
      some { post with likesCount := post.likesCount - 1 } :=
    find?_map_counter db.posts postID post _ (fun p => rfl) hfind
  unfold UnlikePost
  rw [if_neg hpid, if_neg huid, hfind, hlike]
  simp only [hdec]

/-- C4: for an existing post and user, `LikePost` fails AlreadyExists exactly
when a live like for the pair exists and then changes nothing; otherwise it
appends exactly one like row and returns the incremented count.  `UnlikePost`
fails NotFound exactly when no live like exists and then changes nothing;
otherwise it deletes that like and returns the decremented count. -/
theorem c4_like_unlike (db : PostsDB) (postID userID : String) (now : Nat)
    (post : Post) (hpid : postID ≠ "") (huid : userID ≠ "")
    (hfind : db.FindByID postID = some post) :
    ((LikePost db postID userID now).2.2 = some Code.alreadyExists ↔
      (db.FindByPostAndUser postID userID).isSome) ∧
    (∀ like, db.FindByPostAndUser postID userID = some like →
      LikePost db postID userID now = (db, post.likesCount, some Code.alreadyExists)) ∧
    (db.FindByPostAndUser postID userID = none →
      (LikePost db postID userID now).1.likes =
          db.likes ++ [mkLike db.nextID postID userID now] ∧
        (LikePost db postID userID now).2.1 = post.likesCount + 1 ∧
        (LikePost db postID userID now).2.2 = none) ∧
    ((UnlikePost db postID userID).2.2 = some Code.notFound ↔
      db.FindByPostAndUser postID userID = none) ∧
    (db.FindByPostAndUser postID userID = none →
      UnlikePost db postID userID = (db, post.likesCount, some Code.notFound)) ∧
    (∀ like, db.FindByPostAndUser postID userID = some like →
      (UnlikePost db postID userID).1.likes =
          db.likes.filter (fun l => !(l.id == like.id)) ∧
        (UnlikePost db postID userID).2.1 = post.likesCount - 1 ∧
        (UnlikePost db postID userID).2.2 = none) := by
  cases hlk : db.FindByPostAndUser postID userID with
  | none =>
      have hl := LikePost_not_liked db postID userID now post hpid huid hfind hlk
      have hu := UnlikePost_not_liked db postID userID post hpid huid hfind hlk
      refine ⟨?_, ?_, ?_, ?_, ?_, ?_⟩
      · rw [hl]
        simp
      · intro like h
        exact Option.noConfusion h
      · intro _
        rw [hl]
        exact ⟨rfl, rfl, rfl⟩
      · rw [hu]
        simp
      · intro _
        exact hu
      · intro like h
        exact Option.noConfusion h
  | some like0 =>
      have hl := LikePost_already_liked db postID userID now post like0 hpid huid hfind hlk
      have hu := UnlikePost_liked db postID userID post like0 hpid huid hfind hlk
      refine ⟨?_, ?_, ?_, ?_, ?_, ?_⟩
      · rw [hl]
        simp
      · intro like h
        obtain rfl := Option.some.inj h
        exact hl
      · intro h
        exact Option.noConfusion h
      · rw [hu]
        simp
      · intro h
        exact Option.noConfusion h
      · intro like h
        obtain rfl := Option.some.inj h
        rw [hu]
        exact ⟨rfl, rfl, rfl⟩

/-- Witness for `c4_like_unlike` at a concrete store. -/
theorem c4_like_unlike_witness :
    ((LikePost plainPrivateDB "p2" "bob" 0).2.2 = some Code.alreadyExists ↔
      (plainPrivateDB.FindByPostAndUser "p2" "bob").isSome) ∧
    (∀ like, plainPrivateDB.FindByPostAndUser "p2" "bob" = some like →
      LikePost plainPrivateDB "p2" "bob" 0 =
        (plainPrivateDB, plainPrivatePost.likesCount, some Code.alreadyExists)) ∧
    (plainPrivateDB.FindByPostAndUser "p2" "bob" = none →
      (LikePost plainPrivateDB "p2" "bob" 0).1.likes =
          plainPrivateDB.likes ++ [mkLike plainPrivateDB.nextID "p2" "bob" 0] ∧
        (LikePost plainPrivateDB "p2" "bob" 0).2.1 = plainPrivatePost.likesCount + 1 ∧
        (LikePost plainPrivateDB "p2" "bob" 0).2.2 = none) ∧
    ((UnlikePost plainPrivateDB "p2" "bob").2.2 = some Code.notFound ↔
      plainPrivateDB.FindByPostAndUser "p2" "bob" = none) ∧
    (plainPrivateDB.FindByPostAndUser "p2" "bob" = none →
      UnlikePost plainPrivateDB "p2" "bob" =
        (plainPrivateDB, plainPrivatePost.likesCount, some Code.notFound)) ∧
    (∀ like, plainPrivateDB.FindByPostAndUser "p2" "bob" = some like →
      (UnlikePost plainPrivateDB "p2" "bob").1.likes =
          plainPrivateDB.likes.filter (fun l => !(l.id == like.id)) ∧
        (UnlikePost plainPrivateDB "p2" "bob").2.1 = plainPrivatePost.likesCount - 1 ∧
        (UnlikePost plainPrivateDB "p2" "bob").2.2 = none) :=
  c4_like_unlike plainPrivateDB "p2" "bob" 0 plainPrivatePost
    (by decide) (by decide) (by decide)

/-- C5: starting from an existing post with likes count `n` and no live like
by the user (and the fresh like id not colliding with any stored like id, as
with real UUIDs), `LikePost` then `UnlikePost` returns `n + 1` then `n`,
restores the like rows and the post rows, and a second consecutive
`UnlikePost` fails with NotFound and changes nothing. -/
theorem c5_like_unlike_roundtrip (db : PostsDB) (postID userID : String)
    (now : Nat) (post : Post) (n : Int)
    (hpid : postID ≠ "") (huid : userID ≠ "")
    (hfind : db.FindByID postID = some post) (hn : post.likesCount = n)
    (hnolike : db.FindByPostAndUser postID userID = none)
    (hfresh : ∀ l ∈ db.likes, l.id ≠ genID db.nextID) :
    ∃ db1 db2 : PostsDB,
      LikePost db postID userID now = (db1, n + 1, none) ∧
      UnlikePost db1 postID userID = (db2, n, none) ∧
      db2.likes = db.likes ∧
      db2.posts = db.posts ∧
      UnlikePost db2 postID userID = (db2, n, some Code.notFound) := by
  subst hn
  have h1 := LikePost_not_liked db postID userID now post hpid huid hfind hnolike
  have hlikes1 : (({ db with
      likes := db.likes ++ [mkLike db.nextID postID userID now],
      nextID := db.nextID + 1 } : PostsDB).IncrementLikesCount postID).likes =
      db.likes ++ [mkLike db.nextID postID userID now] := rfl
  have hfind1 : (({ db with
      likes := db.likes ++ [mkLike db.nextID postID userID now],
      nextID := db.nextID + 1 } : PostsDB).IncrementLikesCount postID).FindByID
      postID = some { post with likesCount := post.likesCount + 1 } :=
    find?_map_counter db.posts postID post _ (fun p => rfl) hfind
  have hlike1 : (({ db with
      likes := db.likes ++ [mkLike db.nextID postID userID now],
      nextID := db.nextID + 1 } : PostsDB).IncrementLikesCount postID).FindByPostAndUser
      postID userID = some (mkLike db.nextID postID userID now) := by
    unfold PostsDB.FindByPostAndUser at hnolike ⊢
    rw [hlikes1, List.find?_append, hnolike]
    simp [mkLike]
  have h2 := UnlikePost_liked
    (({ db with
      likes := db.likes ++ [mkLike db.nextID postID userID now],
      nextID := db.nextID + 1 } : PostsDB).IncrementLikesCount postID)
    postID userID { post with likesCount := post.likesCount + 1 }
    (mkLike db.nextID postID userID now) hpid huid hfind1 hlike1
  have hlikes2 : (((({ db with
      likes := db.likes ++ [mkLike db.nextID postID userID now],
      nextID := db.nextID + 1 } : PostsDB).IncrementLikesCount postID).DeleteLike
        (mkLike db.nextID postID userID now).id).DecrementLikesCount postID).likes =
      db.likes := by
    show (db.likes ++ [mkLike db.nextID postID userID now]).filter
        (fun l => !(l.id == (mkLike db.nextID postID userID now).id)) = db.likes
    rw [List.filter_append]
    have hkeep : db.likes.filter
        (fun l => !(l.id == (mkLike db.nextID postID userID now).id)) = db.likes := by
      rw [List.filter_eq_self]
      intro l hl
      have hne := hfresh l hl
      simp only [mkLike, Bool.not_eq_true', beq_eq_false_iff_ne, ne_eq]
      exact hne
    rw [hkeep]
    simp
  have hposts2 : (((({ db with
      likes := db.likes ++ [mkLike db.nextID postID userID now],
      nextID := db.nextID + 1 } : PostsDB).IncrementLikesCount postID).DeleteLike
        (mkLike db.nextID postID userID now).id).DecrementLikesCount postID).posts =
      db.posts :=
    decStep_incStep_cancel db.posts postID
  have hfind2 : (((({ db with
      likes := db.likes ++ [mkLike db.nextID postID userID now],
      nextID := db.nextID + 1 } : PostsDB).IncrementLikesCount postID).DeleteLike
        (mkLike db.nextID postID userID now).id).DecrementLikesCount postID).FindByID
      postID = some post := by
    unfold PostsDB.FindByID at hfind ⊢
    rw [hposts2]
    exact hfind
  have hnolike2 : (((({ db with
      likes := db.likes ++ [mkLike db.nextID postID userID now],
      nextID := db.nextID + 1 } : PostsDB).IncrementLikesCount postID).DeleteLike
        (mkLike db.nextID postID userID now).id).DecrementLikesCount postID).FindByPostAndUser
      postID userID = none := by
    unfold PostsDB.FindByPostAndUser at hnolike ⊢
    rw [hlikes2]
    exact hnolike
  have h3 := UnlikePost_not_liked
    (((({ db with
      likes := db.likes ++ [mkLike db.nextID postID userID now],
      nextID := db.nextID + 1 } : PostsDB).IncrementLikesCount postID).DeleteLike
        (mkLike db.nextID postID userID now).id).DecrementLikesCount postID)
    postID userID post hpid huid hfind2 hnolike2
  refine ⟨_, _, h1, ?_, hlikes2, hposts2, h3⟩
  rw [h2]
  simp

/-- Witness for `c5_like_unlike_roundtrip`: the §8 scenario — "B" likes the
public "hello" post of "A" (count 0 → 1), unlikes it (1 → 0) and a second
unlike fails NotFound. -/
theorem c5_like_unlike_roundtrip_witness :
    ∃ db1 db2 : PostsDB,
      LikePost helloDB "h1" "B" 5 = (db1, 0 + 1, none) ∧
      UnlikePost db1 "h1" "B" = (db2, 0, none) ∧
      db2.likes = helloDB.likes ∧
      db2.posts = helloDB.posts ∧
      UnlikePost db2 "h1" "B" = (db2, 0, some Code.notFound) :=
  c5_like_unlike_roundtrip helloDB "h1" "B" 5 helloPost 0
    (by decide) (by decide) (by decide) (by decide) (by decide) (by decide)

/-- `find?` after an update-by-predicate `map` (which rewrites exactly the
rows matched by the search predicate without changing their membership in
it) returns the rewritten row. -/
theorem find?_map_ite {α : Type} (l : List α) (p : α → Bool) (f : α → α)
    (hp : ∀ x, p (f x) = p x) (a : α) (hfind : l.find? p = some a) :
    (l.map (fun x => if p x then f x else x)).find? p = some (f a) := by
  rw [find?_map_of_pred_eq]
  · rw [hfind]
    have hpred := List.find?_some hfind
    simp only [] at hpred
    show some (if p a then f a else a) = some (f a)
    rw [if_pos hpred]
  · intro x
    by_cases hx : p x = true
    · simp [hx, hp]
    · simp only [Bool.not_eq_true] at hx
      simp [hx, hp]

/-- C6: accepting a pending friend request flips its status to "accepted" and
creates exactly the two symmetric friendship rows, after which
`CheckFriendship` answers "friends" in both directions; rejecting flips the
status to "rejected" and creates no friendship row. -/
theorem c6_accept_reject (db : FriendsDB) (requestID a b : String)
    (req : FriendRequest) (now : Nat)
    (hfind : db.GetFriendRequestByID requestID = some req)
    (hsender : req.senderID = a) (hrecv : req.receiverID = b)
    (hpending : req.status = "pending") (hab : a ≠ b) :
    ((AcceptFriendRequest db requestID b now).2 =
      Except.ok { req with status := "accepted", updatedAt := now }) ∧
    ((AcceptFriendRequest db requestID b now).1.friendships =
      db.friendships ++ [mkFriendship db.nextID a b, mkFriendship (db.nextID + 1) b a]) ∧
    (((AcceptFriendRequest db requestID b now).1.GetFriendRequestByID requestID).map
      FriendRequest.status = some "accepted") ∧
    (CheckFriendship (AcceptFriendRequest db requestID b now).1 a b = ("friends", "")) ∧
    (CheckFriendship (AcceptFriendRequest db requestID b now).1 b a = ("friends", "")) ∧
    ((RejectFriendRequest db requestID b now).2 =
      Except.ok { req with status := "rejected", updatedAt := now }) ∧
    ((RejectFriendRequest db requestID b now).1.friendships = db.friendships) ∧
    (((RejectFriendRequest db requestID b now).1.GetFriendRequestByID requestID).map
      FriendRequest.status = some "rejected") := by
  subst hsender
  subst hrecv
  have hacc : AcceptFriendRequest db requestID req.receiverID now =
      ({ db.UpdateFriendRequestStatus requestID "accepted" with
          friendships :=
            ((db.UpdateFriendRequestStatus requestID "accepted").friendships ++
              [mkFriendship db.nextID req.senderID req.receiverID]) ++
              [mkFriendship (db.nextID + 1) req.receiverID req.senderID],
          nextID := db.nextID + 2 },
        Except.ok { req with status := "accepted", updatedAt := now }) := by
    unfold AcceptFriendRequest
    rw [hfind]
    simp [hpending]
    exact ⟨⟨rfl, rfl⟩, rfl⟩
  have hrej : RejectFriendRequest db requestID req.receiverID now =
      (db.UpdateFriendRequestStatus requestID "rejected",
        Except.ok { req with status := "rejected", updatedAt := now }) := by
    unfold RejectFriendRequest
    rw [hfind]
    simp [hpending]
  have hstatus : ∀ s : String,
      (db.UpdateFriendRequestStatus requestID s).GetFriendRequestByID requestID =
        some { req with status := s } := by
    intro s
    unfold FriendsDB.GetFriendRequestByID at hfind ⊢
    exact find?_map_ite db.requests (fun r => r.id == requestID)
      (fun r => { r with status := s }) (fun r => rfl) req hfind
  refine ⟨?_, ?_, ?_, ?_, ?_, ?_, ?_, ?_⟩
  · rw [hacc]
  · rw [hacc]
    show ((db.friendships ++ [mkFriendship db.nextID req.senderID req.receiverID]) ++
        [mkFriendship (db.nextID + 1) req.receiverID req.senderID]) = _
    rw [List.append_assoc]
    rfl
  · rw [hacc]
    show ((db.UpdateFriendRequestStatus requestID "accepted").GetFriendRequestByID
        requestID).map FriendRequest.status = some "accepted"
    rw [hstatus "accepted"]
    rfl
  · rw [hacc]
    unfold CheckFriendship
    rw [if_neg hab]
    unfold FriendsDB.CheckFriendship
    rw [if_pos]
    simp [List.any_append, mkFriendship]
  · rw [hacc]
    unfold CheckFriendship
    rw [if_neg (Ne.symm hab)]
    unfold FriendsDB.CheckFriendship
    rw [if_pos]
    simp [List.any_append, mkFriendship]
  · rw [hrej]
  · rw [hrej]
    rfl
  · rw [hrej]
    show ((db.UpdateFriendRequestStatus requestID "rejected").GetFriendRequestByID
        requestID).map FriendRequest.status = some "rejected"
    rw [hstatus "rejected"]
    rfl

/-- Witness for `c6_accept_reject` at the concrete pending request from "A"
to "B". -/
theorem c6_accept_reject_witness :
    ((AcceptFriendRequest pendingDB "r1" "B" 7).2 =
      Except.ok { pendingRequest with status := "accepted", updatedAt := 7 }) ∧
    ((AcceptFriendRequest pendingDB "r1" "B" 7).1.friendships =
      pendingDB.friendships ++
        [mkFriendship pendingDB.nextID "A" "B", mkFriendship (pendingDB.nextID + 1) "B" "A"]) ∧
    (((AcceptFriendRequest pendingDB "r1" "B" 7).1.GetFriendRequestByID "r1").map
      FriendRequest.status = some "accepted") ∧
    (CheckFriendship (AcceptFriendRequest pendingDB "r1" "B" 7).1 "A" "B" = ("friends", "")) ∧
    (CheckFriendship (AcceptFriendRequest pendingDB "r1" "B" 7).1 "B" "A" = ("friends", "")) ∧
    ((RejectFriendRequest pendingDB "r1" "B" 7).2 =
      Except.ok { pendingRequest with status := "rejected", updatedAt := 7 }) ∧
    ((RejectFriendRequest pendingDB "r1" "B" 7).1.friendships = pendingDB.friendships) ∧
    (((RejectFriendRequest pendingDB "r1" "B" 7).1.GetFriendRequestByID "r1").map
      FriendRequest.status = some "rejected") :=
  c6_accept_reject pendingDB "r1" "A" "B" pendingRequest 7
    (by decide) (by decide) (by decide) (by decide) (by decide)

/-- C7 counterexample: the membership check runs before the creator check, so
a creator holding no membership row fails with "not a member of this group"
rather than "creator cannot leave the group", refuting the claim that the
creator error is returned whenever the caller is the creator. -/
theorem c7_counterexample :
    theGroup.creatorID = "C" ∧
    lonelyGroupDB.GetGroupByID "g1" = some theGroup ∧
    LeaveGroup lonelyGroupDB "g1" "C" =
      (lonelyGroupDB, Except.error "not a member of this group") ∧
    (LeaveGroup lonelyGroupDB "g1" "C").2 ≠
      Except.error "creator cannot leave the group" := by
  decide

/-- C7 (amended): `LeaveGroup` on an existing group fails when the caller is
not a member; a member who is the creator fails with "creator cannot leave
the group"; the store is unchanged whenever the caller is the creator
(whether or not a member, so the creator can never leave); a non-creator
member is removed and the updated member count returned. -/
theorem c7_leave_group (db : GroupsDB) (groupID userID : String) (group : Group)
    (hfind : db.GetGroupByID groupID = some group) :
    (db.IsMember groupID userID = false →
      LeaveGroup db groupID userID = (db, Except.error "not a member of this group")) ∧
    (db.IsMember groupID userID = true → group.creatorID = userID →
      LeaveGroup db groupID userID = (db, Except.error "creator cannot leave the group")) ∧
    (group.creatorID = userID → (LeaveGroup db groupID userID).1 = db) ∧
    (db.IsMember groupID userID = true → group.creatorID ≠ userID →
      LeaveGroup db groupID userID =
        (db.RemoveMember groupID userID,
          Except.ok (true, ((db.RemoveMember groupID userID).GetGroupMembers groupID 1 1).2))) := by
  refine ⟨?_, ?_, ?_, ?_⟩
  · intro hm
    unfold LeaveGroup
    rw [hfind]
    simp [hm]
  · intro hm hc
    unfold LeaveGroup
    rw [hfind]
    simp [hm, hc]
  · intro hc
    by_cases hm : db.IsMember groupID userID = true
    · unfold LeaveGroup
      rw [hfind]
      simp [hm, hc]
    · simp only [Bool.not_eq_true] at hm
      unfold LeaveGroup
      rw [hfind]
      simp [hm]
  · intro hm hc
    unfold LeaveGroup
    rw [hfind]
    simp [hm, hc]

/-- Witness for `c7_leave_group` on the concrete group of creator "C". -/
theorem c7_leave_group_witness :
    (groupDB.IsMember "g1" "C" = false →
      LeaveGroup groupDB "g1" "C" = (groupDB, Except.error "not a member of this group")) ∧
    (groupDB.IsMember "g1" "C" = true → theGroup.creatorID = "C" →
      LeaveGroup groupDB "g1" "C" = (groupDB, Except.error "creator cannot leave the group")) ∧
    (theGroup.creatorID = "C" → (LeaveGroup groupDB "g1" "C").1 = groupDB) ∧
    (groupDB.IsMember "g1" "C" = true → theGroup.creatorID ≠ "C" →
      LeaveGroup groupDB "g1" "C" =
        (groupDB.RemoveMember "g1" "C",
          Except.ok (true, ((groupDB.RemoveMember "g1" "C").GetGroupMembers "g1" 1 1).2))) :=
  c7_leave_group groupDB "g1" "C" theGroup (by decide)

/-- C8 counterexample: the claim quantifies over every `UpdatePost` call, but
input validation precedes the lookup: with empty content and a post id that
does not resolve, `UpdatePost` fails with InvalidArgument, not NotFound. -/
theorem c8_counterexample :
    helloDB.FindByID "missing" = none ∧
    UpdatePost helloDB "missing" "u" "" "" none 0 =
      (helloDB, Except.error Code.invalidArgument) ∧
    (UpdatePost helloDB "missing" "u" "" "" none 0).2 ≠
      Except.error Code.notFound := by
  decide

/-- C8 (amended): for every `UpdatePost` call that passes input validation
(non-empty post id, user id and content; visibility empty, "public" or
"private"), the call fails NotFound when the id does not resolve and
PermissionDenied when the caller is not the author, mutating nothing in both
cases; on success only content, updated_at, visibility (only when a
non-empty visibility is given) and the media list (only when a media list is
given) change, and the id, author id/name/avatar, group id/name, likes and
comments counters and created_at are unchanged. -/
theorem c8_update_post (db : PostsDB) (postID userID content visibility : String)
    (media : Option (List String)) (now : Nat)
    (hpid : postID ≠ "") (huid : userID ≠ "") (hcontent : content ≠ "")
    (hvis : visibility = "" ∨ visibility = "public" ∨ visibility = "private") :
    (db.FindByID postID = none →
      UpdatePost db postID userID content visibility media now =
        (db, Except.error Code.notFound)) ∧
    (∀ post, db.FindByID postID = some post → post.authorID ≠ userID →
      UpdatePost db postID userID content visibility media now =
        (db, Except.error Code.permissionDenied)) ∧
    (∀ post, db.FindByID postID = some post → post.authorID = userID →
      ∃ post', UpdatePost db postID userID content visibility media now =
          (db.SavePost post', Except.ok post') ∧
        post'.content = content ∧
        post'.updatedAt = now ∧
        post'.visibility = (if visibility = "" then post.visibility else visibility) ∧
        post'.mediaArray = media.getD post.mediaArray ∧
        post'.id = post.id ∧
        post'.authorID = post.authorID ∧
        post'.authorName = post.authorName ∧
        post'.authorAvatar = post.authorAvatar ∧
        post'.groupID = post.groupID ∧
        post'.groupName = post.groupName ∧
        post'.likesCount = post.likesCount ∧
        post'.commentsCount = post.commentsCount ∧
        post'.createdAt = post.createdAt) := by
  have hvnot : ¬(visibility ≠ "" ∧ visibility ≠ "public" ∧ visibility ≠ "private") := by
    rcases hvis with h | h | h <;> simp [h]
  refine ⟨?_, ?_, ?_⟩
  · intro hnone
    unfold UpdatePost
    rw [if_neg hpid, if_neg huid, if_neg hcontent, if_neg hvnot, hnone]
  · intro post hfind hauth
    have hred : UpdatePost db postID userID content visibility media now =
        (db, Except.error Code.permissionDenied) := by
      unfold UpdatePost
      rw [if_neg hpid, if_neg huid, if_neg hcontent, if_neg hvnot, hfind]
      simp [hauth]
    exact hred
  · intro post hfind hauth
    have hred : UpdatePost db postID userID content visibility media now =
        (db.SavePost { post with
            content := content,
            visibility := if visibility ≠ "" then visibility else post.visibility,
            mediaArray := media.getD post.mediaArray,
            updatedAt := now },
          Except.ok { post with
            content := content,
            visibility := if visibility ≠ "" then visibility else post.visibility,
            mediaArray := media.getD post.mediaArray,
            updatedAt := now }) := by
      unfold UpdatePost
      rw [if_neg hpid, if_neg huid, if_neg hcontent, if_neg hvnot, hfind]
      simp [hauth]
    refine ⟨_, hred, rfl, rfl, ?_, rfl, rfl, rfl, rfl, rfl, rfl, rfl, rfl, rfl, rfl⟩
    by_cases h : visibility = "" <;> simp [h]

/-- Witness for `c8_update_post` at a concrete store. -/
theorem c8_update_post_witness :
    (helloDB.FindByID "h1" = none →
      UpdatePost helloDB "h1" "A" "new" "" none 9 =
        (helloDB, Except.error Code.notFound)) ∧
    (∀ post, helloDB.FindByID "h1" = some post → post.authorID ≠ "A" →
      UpdatePost helloDB "h1" "A" "new" "" none 9 =
        (helloDB, Except.error Code.permissionDenied)) ∧
    (∀ post, helloDB.FindByID "h1" = some post → post.authorID = "A" →
      ∃ post', UpdatePost helloDB "h1" "A" "new" "" none 9 =
          (helloDB.SavePost post', Except.ok post') ∧
        post'.content = "new" ∧
        post'.updatedAt = 9 ∧
        post'.visibility = (if ("" : String) = "" then post.visibility else "") ∧
        post'.mediaArray = (none : Option (List String)).getD post.mediaArray ∧
        post'.id = post.id ∧
        post'.authorID = post.authorID ∧
        post'.authorName = post.authorName ∧
        post'.authorAvatar = post.authorAvatar ∧
        post'.groupID = post.groupID ∧
        post'.groupName = post.groupName ∧
        post'.likesCount = post.likesCount ∧
        post'.commentsCount = post.commentsCount ∧
        post'.createdAt = post.createdAt) :=
  c8_update_post helloDB "h1" "A" "new" "" none 9
    (by decide) (by decide) (by decide) (Or.inl rfl)

end Social
